import Mathlib

/-!
Verification of the prompt-routing and response-formatting pipeline of the
APIM-MCP-Demo repository.

The repository contains two Python scripts that share one pipeline:
`pet_store_demo_mock.py` (class `AIOrchestrator` driven by a
`MockPetStoreMCPClient` holding five hard-coded pets) and `pet_store_demo.py`
(class `PetStoreSemanticKernelAgent`, whose routing and formatting helpers are
the same pipeline adapted to remote tool invocation).

This file shallowly embeds that pipeline:
- Python values that flow through the pipeline are modelled by `PyVal`
  (None / bool / int / str / list / dict).
- Python operations that can raise (`.get` on a non-dict, `.title()` on a
  non-string, `', '.join` over non-strings, iteration over a non-iterable,
  `len` of a non-sized value, indexing a missing key) are modelled in
  `Except PyErr`; code wrapped in `try/except` in the source becomes a total
  function that maps the error case to the source's fallback string.
- The keyword routing chains of `AIOrchestrator.process_prompt`
  (mock script) and `PetStoreSemanticKernelAgent._route_prompt_to_function`
  (Semantic Kernel script) are embedded as decision functions returning the
  selected operation plus argument; the mock script's handler bodies and demo
  driver loop are embedded on top of that decision.

Namespace `Mock` holds definitions from `pet_store_demo_mock.py`, namespace
`SK` those from `pet_store_demo.py`; helpers whose bodies are verbatim
identical in both files live in the shared `PetStore` namespace.
-/

namespace PetStore

/-- Model of the Python values flowing through the pipeline. -/
inductive PyVal where
  | none
  | bool (b : Bool)
  | int (n : Int)
  | str (s : String)
  | list (xs : List PyVal)
  | dict (kvs : List (String × PyVal))
  deriving Repr

/-- Python exceptions that the embedded operations can raise. -/
inductive PyErr where
  | attributeError
  | typeError
  | keyError
  deriving Repr, DecidableEq

/-- Python truthiness (`bool(v)`) for the modelled values. -/
def truthy : PyVal → Bool
  | .none => false
  | .bool b => b
  | .int n => n != 0
  | .str s => !s.data.isEmpty
  | .list xs => !xs.isEmpty
  | .dict kvs => !kvs.isEmpty

/-- First binding of a key in a modelled dict (Python dicts have unique keys). -/
def lookupKey (kvs : List (String × PyVal)) (k : String) : Option PyVal :=
  (kvs.find? (fun kv => kv.1 == k)).map (fun kv => kv.2)

/-- Python `d.get(k, default)`: raises `AttributeError` when the receiver is
not a dict (as `.get` does on e.g. `None` or a string). -/
def dictGet (v : PyVal) (k : String) (dflt : PyVal) : Except PyErr PyVal :=
  match v with
  | .dict kvs => .ok ((lookupKey kvs k).getD dflt)
  | _ => .error .attributeError

/-- Python `d.get(k)` (one-argument form, default `None`). -/
def dictGet1 (v : PyVal) (k : String) : Except PyErr PyVal :=
  dictGet v k .none

/-- Python `d[k]` indexing: `KeyError` when missing, `TypeError` on non-dict. -/
def pyIndex (v : PyVal) (k : String) : Except PyErr PyVal :=
  match v with
  | .dict kvs =>
    match lookupKey kvs k with
    | some x => .ok x
    | Option.none => .error .keyError
  | _ => .error .typeError

mutual

/-- Python `==` on the modelled values (structural over the model). -/
def pyEqB : PyVal → PyVal → Bool
  | .none, .none => true
  | .bool a, .bool b => a == b
  | .int a, .int b => a == b
  | .str a, .str b => a == b
  | .list as, .list bs => pyEqListB as bs
  | .dict as, .dict bs => pyEqDictB as bs
  | _, _ => false

/-- Elementwise `==` on modelled lists. -/
def pyEqListB : List PyVal → List PyVal → Bool
  | [], [] => true
  | a :: as, b :: bs => pyEqB a b && pyEqListB as bs
  | _, _ => false

/-- Pairwise `==` on modelled dict entry lists. -/
def pyEqDictB : List (String × PyVal) → List (String × PyVal) → Bool
  | [], [] => true
  | (k1, v1) :: as, (k2, v2) :: bs => k1 == k2 && pyEqB v1 v2 && pyEqDictB as bs
  | _, _ => false

end

/-- ASCII lower-casing of one character, matching `str.lower` on the ASCII
range that the scripts operate on. -/
def lowerChar (c : Char) : Char :=
  if 65 ≤ c.toNat ∧ c.toNat ≤ 90 then Char.ofNat (c.toNat + 32) else c

/-- ASCII upper-casing of one character (used by `str.title`). -/
def upperChar (c : Char) : Char :=
  if 97 ≤ c.toNat ∧ c.toNat ≤ 122 then Char.ofNat (c.toNat - 32) else c

/-- Python `s.lower()` on strings. -/
def pyLower (s : String) : String :=
  ⟨s.data.map lowerChar⟩

/-- ASCII letter test (the cased characters of `str.title` on ASCII text). -/
def isAsciiAlpha (c : Char) : Bool :=
  (65 ≤ c.toNat && c.toNat ≤ 90) || (97 ≤ c.toNat && c.toNat ≤ 122)

/-- Worker for `str.title`: upper-cases a letter that follows a non-letter,
lower-cases a letter that follows a letter. -/
def titleAux : Bool → List Char → List Char
  | _, [] => []
  | prev, c :: cs =>
    if isAsciiAlpha c then
      (if prev then lowerChar c else upperChar c) :: titleAux true cs
    else
      c :: titleAux false cs

/-- Python `s.title()` on strings. -/
def pyTitle (s : String) : String :=
  ⟨titleAux false s.data⟩

/-- Python `v.lower()` on a value: only strings have the method. -/
def pyLowerV (v : PyVal) : Except PyErr String :=
  match v with
  | .str s => .ok (pyLower s)
  | _ => .error .attributeError

/-- Python `v.title()` on a value: only strings have the method. -/
def pyTitleV (v : PyVal) : Except PyErr String :=
  match v with
  | .str s => .ok (pyTitle s)
  | _ => .error .attributeError

/-- List-level substring occurrence: does `pat` occur contiguously in `hay`? -/
def listContainsSeq (hay pat : List Char) : Bool :=
  match hay with
  | [] => pat.isEmpty
  | _ :: t => pat.isPrefixOf hay || listContainsSeq t pat

/-- Python `pat in s` on strings. -/
def pyIn (pat s : String) : Bool :=
  listContainsSeq s.data pat.data

/-- Python `any(char.isdigit() for char in prompt)` (ASCII digits). -/
def anyDigit (s : String) : Bool :=
  s.data.any Char.isDigit

/-- First maximal run of consecutive ASCII digits in a character list — the
first match of the regular expression `\d+`, as `re.findall(r'\d+', s)[0]`. -/
def firstDigitRun : List Char → Option (List Char)
  | [] => Option.none
  | c :: rest =>
    if c.isDigit then some (c :: rest.takeWhile Char.isDigit)
    else firstDigitRun rest

/-- Decimal value of a digit run, as Python `int` applied to the digit text. -/
def digitsToNat (ds : List Char) : Nat :=
  ds.foldl (fun a c => 10 * a + (c.toNat - 48)) 0

/-- Shared helper `_extract_pet_id` (identical in both scripts):
`numbers = re.findall(r'\d+', prompt); return int(numbers[0]) if numbers else None`. -/
def _extract_pet_id (prompt : String) : Option Int :=
  (firstDigitRun prompt.data).map (fun ds => (digitsToNat ds : Int))

mutual

/-- Python `repr` of a modelled value (as used for values nested inside
containers by `str`). -/
def pyRepr : PyVal → String
  | .none => "None"
  | .bool b => if b then "True" else "False"
  | .int n => toString n
  | .str s => "\x27" ++ s ++ "\x27"
  | .list xs => "[" ++ String.intercalate ", " (pyReprList xs) ++ "]"
  | .dict kvs => "\x7b" ++ String.intercalate ", " (pyReprDict kvs) ++ "\x7d"

/-- Elementwise `repr` of list elements. -/
def pyReprList : List PyVal → List String
  | [] => []
  | v :: vs => pyRepr v :: pyReprList vs

/-- Entrywise `repr` of dict entries. -/
def pyReprDict : List (String × PyVal) → List String
  | [] => []
  | (k, v) :: kvs => ("\x27" ++ k ++ "\x27: " ++ pyRepr v) :: pyReprDict kvs

end

/-- Python `str` of a modelled value (a top-level string prints unquoted). -/
def pyStr : PyVal → String
  | .str s => s
  | v => pyRepr v

/-- Whitespace skipping for the JSON reader. -/
def skipWs : List Char → List Char
  | [] => []
  | c :: cs =>
    if c == ' ' || c == '\t' || c == '\n' || c == '\r' then skipWs cs else c :: cs

/-- JSON string body reader (after the opening quote), modelling the escapes
the demo payloads can contain. -/
def parseStrAux : List Char → List Char → Option (String × List Char)
  | _, [] => Option.none
  | acc, c :: cs =>
    if c == '"' then some (⟨acc.reverse⟩, cs)
    else if c == '\\' then
      match cs with
      | [] => Option.none
      | e :: cs2 =>
        if e == '"' then parseStrAux ('"' :: acc) cs2
        else if e == '\\' then parseStrAux ('\\' :: acc) cs2
        else if e == 'n' then parseStrAux ('\n' :: acc) cs2
        else Option.none
    else parseStrAux (c :: acc) cs

/-- JSON integer reader (the demo payloads carry integer numbers only; a
fractional or exponent suffix is not modelled and fails the decode). -/
def parseIntTok (cs : List Char) : Option (Int × List Char) :=
  let (neg, cs1) :=
    match cs with
    | '-' :: rest => (true, rest)
    | _ => (false, cs)
  let ds := cs1.takeWhile Char.isDigit
  if ds.isEmpty then Option.none
  else
    let rest := cs1.drop ds.length
    match rest with
    | c :: _ =>
      if c == '.' || c == 'e' || c == 'E' then Option.none
      else some ((if neg then -(digitsToNat ds : Int) else (digitsToNat ds : Int)), rest)
    | [] => some ((if neg then -(digitsToNat ds : Int) else (digitsToNat ds : Int)), [])

/-- Literal keyword reader (`null`, `true`, `false`). -/
def dropLit (lit cs : List Char) : Option (List Char) :=
  if lit.isPrefixOf cs then some (cs.drop lit.length) else Option.none

mutual

/-- Fuel-indexed JSON value reader modelling `json.loads`. -/
def parseVal : Nat → List Char → Option (PyVal × List Char)
  | 0, _ => Option.none
  | Nat.succ fuel, cs =>
    match skipWs cs with
    | [] => Option.none
    | c :: rest =>
      if c == '"' then
        match parseStrAux [] rest with
        | some (s, cs2) => some (PyVal.str s, cs2)
        | Option.none => Option.none
      else if c == '[' then
        match skipWs rest with
        | ']' :: cs2 => some (PyVal.list [], cs2)
        | _ =>
          match parseItems fuel rest with
          | some (xs, cs2) => some (PyVal.list xs, cs2)
          | Option.none => Option.none
      else if c == '\x7b' then
        match skipWs rest with
        | '\x7d' :: cs2 => some (PyVal.dict [], cs2)
        | _ =>
          match parseEntries fuel rest with
          | some (kvs, cs2) => some (PyVal.dict kvs, cs2)
          | Option.none => Option.none
      else if c == 'n' then
        match dropLit ['u', 'l', 'l'] rest with
        | some cs2 => some (PyVal.none, cs2)
        | Option.none => Option.none
      else if c == 't' then
        match dropLit ['r', 'u', 'e'] rest with
        | some cs2 => some (PyVal.bool true, cs2)
        | Option.none => Option.none
      else if c == 'f' then
        match dropLit ['a', 'l', 's', 'e'] rest with
        | some cs2 => some (PyVal.bool false, cs2)
        | Option.none => Option.none
      else
        match parseIntTok (c :: rest) with
        | some (n, cs2) => some (PyVal.int n, cs2)
        | Option.none => Option.none

/-- Comma-separated array items up to the closing bracket. -/
def parseItems : Nat → List Char → Option (List PyVal × List Char)
  | 0, _ => Option.none
  | Nat.succ fuel, cs =>
    match parseVal fuel cs with
    | some (v, cs2) =>
      match skipWs cs2 with
      | ',' :: cs3 =>
        match parseItems fuel cs3 with
        | some (vs, cs4) => some (v :: vs, cs4)
        | Option.none => Option.none
      | ']' :: cs3 => some ([v], cs3)
      | _ => Option.none
    | Option.none => Option.none

/-- Comma-separated object entries up to the closing brace. -/
def parseEntries : Nat → List Char → Option (List (String × PyVal) × List Char)
  | 0, _ => Option.none
  | Nat.succ fuel, cs =>
    match skipWs cs with
    | '"' :: cs1 =>
      match parseStrAux [] cs1 with
      | some (k, cs2) =>
        match skipWs cs2 with
        | ':' :: cs3 =>
          match parseVal fuel cs3 with
          | some (v, cs4) =>
            match skipWs cs4 with
            | ',' :: cs5 =>
              match parseEntries fuel cs5 with
              | some (kvs, cs6) => some ((k, v) :: kvs, cs6)
              | Option.none => Option.none
            | '\x7d' :: cs5 => some ([(k, v)], cs5)
            | _ => Option.none
          | Option.none => Option.none
        | _ => Option.none
      | Option.none => Option.none
    | _ => Option.none

end

/-- Model of `json.loads`: reads one JSON value and requires only whitespace
after it; any failure is the `json.JSONDecodeError` case. -/
def json_loads (s : String) : Option PyVal :=
  match parseVal (s.length + 2) s.data with
  | some (v, rest) => if (skipWs rest).isEmpty then some v else Option.none
  | Option.none => Option.none

/-- Effectful map over a list, propagating the first raised error
(the evaluation order of a Python list comprehension). -/
def mapE (f : α → Except PyErr β) : List α → Except PyErr (List β)
  | [] => .ok []
  | a :: as => do
    let b ← f a
    let bs ← mapE f as
    pure (b :: bs)

/-- Effectful filter over a list, propagating the first raised error
(a Python list comprehension with a condition). -/
def filterE (p : α → Except PyErr Bool) : List α → Except PyErr (List α)
  | [] => .ok []
  | a :: as => do
    let b ← p a
    let rest ← filterE p as
    pure (if b then a :: rest else rest)

/-- Python iteration `for x in v`: lists yield elements, strings yield
one-character strings, anything else raises `TypeError`. -/
def pyIterate (v : PyVal) : Except PyErr (List PyVal) :=
  match v with
  | .list xs => .ok xs
  | .str s => .ok (s.data.map (fun c => .str (String.singleton c)))
  | _ => .error .typeError

/-- Python `sep.join(vs)`: every element must be a string. -/
def pyJoin (sep : String) (vs : List PyVal) : Except PyErr String := do
  let ss ← mapE
    (fun v => match v with
      | PyVal.str s => Except.ok s
      | _ => Except.error PyErr.typeError) vs
  pure (String.intercalate sep ss)

/-- Python `len(v)` for sized values. -/
def pyLen (v : PyVal) : Except PyErr Nat :=
  match v with
  | .list xs => .ok xs.length
  | .str s => .ok s.data.length
  | .dict kvs => .ok kvs.length
  | _ => .error .typeError

/-- Helper `_get_pet_emoji` (identical in both scripts):
`category.lower() if category else ""` followed by the substring chain. -/
def _get_pet_emoji (category : PyVal) : Except PyErr String := do
  let category_lower ← if truthy category then pyLowerV category else pure ""
  pure (if pyIn "dog" category_lower then "🐕"
    else if pyIn "cat" category_lower then "🐱"
    else if pyIn "bird" category_lower then "🐦"
    else if pyIn "fish" category_lower then "🐠"
    else if pyIn "rabbit" category_lower then "🐰"
    else "🐾")

/-- Helper `_get_status_emoji` (identical in both scripts):
`status.lower() if status else ""` followed by the equality chain. -/
def _get_status_emoji (status : PyVal) : Except PyErr String := do
  let status_lower ← if truthy status then pyLowerV status else pure ""
  pure (if status_lower == "available" then "🟢"
    else if status_lower == "pending" then "🟡"
    else if status_lower == "sold" then "🔴"
    else "❓")

/-- The tags text of one pet:
`', '.join([tag.get('name', '') for tag in pet.get('tags', [])])`. -/
def tags_joined (pet : PyVal) : Except PyErr String := do
  let tagsV ← dictGet pet "tags" (.list [])
  let ts ← pyIterate tagsV
  let names ← mapE (fun tag => dictGet tag "name" (.str "")) ts
  pyJoin ", " names

/-- Loop body of `_format_pets_response` for one (dict) pet, shared verbatim
by both scripts (mock lines 184-196, Semantic Kernel lines 316-331): the
three field lines, the conditional tags line, and the trailing blank line. -/
def format_pet_block (pet : PyVal) : Except PyErr String := do
  let catV ← dictGet pet "category" (.dict [])
  let catName ← dictGet catV "name" (.str "")
  let pet_emoji ← _get_pet_emoji catName
  let stV ← dictGet pet "status" (.str "")
  let status_emoji ← _get_status_emoji stV
  let idV ← dictGet pet "id" (.str "Unknown")
  let nameV ← dictGet pet "name" (.str "Unnamed")
  let catV2 ← dictGet pet "category" (.dict [])
  let catName2 ← dictGet catV2 "name" (.str "Unknown")
  let stV2 ← dictGet pet "status" (.str "Unknown")
  let statusTitle ← pyTitleV stV2
  let tagsV ← dictGet1 pet "tags"
  let tagsPart ←
    if truthy tagsV then do
      let joined ← tags_joined pet
      pure ("   🏷️  Tags: " ++ joined ++ "\n")
    else pure ""
  pure (pet_emoji ++ " **Pet #" ++ pyStr idV ++ "**: " ++ pyStr nameV ++ "\n"
    ++ "   📂 Category: " ++ pyStr catName2 ++ "\n"
    ++ "   " ++ status_emoji ++ " Status: " ++ statusTitle ++ "\n"
    ++ tagsPart ++ "\n")

/-- One appended piece of `_format_single_pet_response`, kept as structured
data so that the presence or absence of the tags line is a fact about the
list of pieces rather than about substrings of the final text. -/
inductive PetLine where
  | banner (e : String)
  | idLine (s : String)
  | nameLine (s : String)
  | categoryLine (s : String)
  | statusLine (e s : String)
  | tagsLine (joined : String)
  | photosLine (n : Nat)
  deriving Repr, DecidableEq

/-- Exact text each piece contributes in the source. -/
def PetLine.render : PetLine → String
  | .banner e => e ++ " **Pet Details** " ++ e ++ "\n\n"
  | .idLine s => "🆔 ID: " ++ s ++ "\n"
  | .nameLine s => "📛 Name: " ++ s ++ "\n"
  | .categoryLine s => "📂 Category: " ++ s ++ "\n"
  | .statusLine e s => e ++ " Status: " ++ s ++ "\n"
  | .tagsLine j => "🏷️  Tags: " ++ j ++ "\n"
  | .photosLine n => "📸 Photos: " ++ toString n ++ " available\n"

/-- Recognizer for the tags piece. -/
def PetLine.isTagsLine : PetLine → Bool
  | .tagsLine _ => true
  | _ => false

/-- Body of `_format_single_pet_response`, shared verbatim by both scripts
(mock lines 200-218, Semantic Kernel lines 348-365): banner, id, name,
category and status pieces, then a tags piece only when `pet.get('tags')` is
truthy, then a photos piece only when `pet.get('photoUrls')` is truthy. -/
def single_pet_lines (pet : PyVal) : Except PyErr (List PetLine) := do
  let catV ← dictGet pet "category" (.dict [])
  let catName ← dictGet catV "name" (.str "")
  let pet_emoji ← _get_pet_emoji catName
  let stV ← dictGet pet "status" (.str "")
  let status_emoji ← _get_status_emoji stV
  let idV ← dictGet pet "id" (.str "Unknown")
  let nameV ← dictGet pet "name" (.str "Unnamed")
  let catV2 ← dictGet pet "category" (.dict [])
  let catName2 ← dictGet catV2 "name" (.str "Unknown")
  let stV2 ← dictGet pet "status" (.str "Unknown")
  let statusTitle ← pyTitleV stV2
  let tagsV ← dictGet1 pet "tags"
  let tagsPart ←
    if truthy tagsV then do
      let joined ← tags_joined pet
      pure [PetLine.tagsLine joined]
    else pure []
  let photosV ← dictGet1 pet "photoUrls"
  let photosPart ←
    if truthy photosV then do
      let pv ← dictGet pet "photoUrls" (.list [])
      let n ← pyLen pv
      pure [PetLine.photosLine n]
    else pure []
  pure ([PetLine.banner pet_emoji, PetLine.idLine (pyStr idV),
    PetLine.nameLine (pyStr nameV), PetLine.categoryLine (pyStr catName2),
    PetLine.statusLine status_emoji statusTitle] ++ tagsPart ++ photosPart)

/-- The single-pet body rendered to its final string. -/
def _format_single_pet_response_core (pet : PyVal) : Except PyErr String :=
  (single_pet_lines pet).map (fun l => String.join (l.map PetLine.render))

/-- Routing outcomes of `AIOrchestrator.process_prompt` in the mock script:
which handler the keyword chain dispatches to, with its argument. `needId`
is the inline help message asking for a valid pet ID number. -/
inductive RouteDecision where
  | listAll
  | byId (n : Int)
  | needId
  | pendingPets
  | availablePets
  | soldPets
  | dogs
  | cats
  | general
  deriving Repr, DecidableEq

/-- Routing outcomes of `_route_prompt_to_function` in the Semantic Kernel
script (no dog or cat branches there). -/
inductive SKRoute where
  | byId (n : Int)
  | needId
  | listAll
  | pendingPets
  | availablePets
  | soldPets
  | general
  deriving Repr, DecidableEq

namespace Mock

/-- Keyword dispatch of `AIOrchestrator.process_prompt`
(`pet_store_demo_mock.py` lines 87-112). Python's `if pet_id:` is false both
when `_extract_pet_id` returned `None` and when it returned `0`. -/
def route (prompt : String) : RouteDecision :=
  let prompt_lower := pyLower prompt
  if pyIn "all pets" prompt_lower || pyIn "list pets" prompt_lower then .listAll
  else if pyIn "pet" prompt_lower && (pyIn "id" prompt_lower || anyDigit prompt) then
    match _extract_pet_id prompt with
    | some pet_id => if pet_id != 0 then .byId pet_id else .needId
    | Option.none => .needId
  else if pyIn "pending" prompt_lower then .pendingPets
  else if pyIn "available" prompt_lower || pyIn "adoption" prompt_lower then .availablePets
  else if pyIn "sold" prompt_lower then .soldPets
  else if pyIn "dog" prompt_lower then .dogs
  else if pyIn "cat" prompt_lower then .cats
  else .general

end Mock

namespace SK

/-- Keyword dispatch of `_route_prompt_to_function`
(`pet_store_demo.py` lines 184-210): the pet-id branch is checked before the
all-pets branch, and the same falsy treatment of `pet_id` applies. -/
def _route_prompt_to_function (prompt : String) : SKRoute :=
  let prompt_lower := pyLower prompt
  if pyIn "pet" prompt_lower && (pyIn "id" prompt_lower || anyDigit prompt) then
    match _extract_pet_id prompt with
    | some pet_id => if pet_id != 0 then .byId pet_id else .needId
    | Option.none => .needId
  else if pyIn "all pets" prompt_lower || pyIn "list pets" prompt_lower then .listAll
  else if pyIn "pending" prompt_lower then .pendingPets
  else if pyIn "available" prompt_lower || pyIn "adoption" prompt_lower then .availablePets
  else if pyIn "sold" prompt_lower then .soldPets
  else .general

end SK

namespace Mock

/-- MockPetStoreMCPClient's hard-coded data (`pet_store_demo_mock.py`
lines 23-64). -/
def mock_pets : List PyVal :=
  [ .dict [("id", .int 1), ("name", .str "Buddy"),
      ("category", .dict [("id", .int 1), ("name", .str "Dogs")]),
      ("status", .str "available"),
      ("tags", .list [.dict [("id", .int 1), ("name", .str "friendly")],
        .dict [("id", .int 2), ("name", .str "trained")]]),
      ("photoUrls", .list [.str "https://example.com/buddy1.jpg",
        .str "https://example.com/buddy2.jpg"])],
    .dict [("id", .int 2), ("name", .str "Whiskers"),
      ("category", .dict [("id", .int 2), ("name", .str "Cats")]),
      ("status", .str "available"),
      ("tags", .list [.dict [("id", .int 3), ("name", .str "calm")],
        .dict [("id", .int 4), ("name", .str "indoor")]]),
      ("photoUrls", .list [.str "https://example.com/whiskers.jpg"])],
    .dict [("id", .int 3), ("name", .str "Charlie"),
      ("category", .dict [("id", .int 1), ("name", .str "Dogs")]),
      ("status", .str "pending"),
      ("tags", .list [.dict [("id", .int 1), ("name", .str "friendly")],
        .dict [("id", .int 5), ("name", .str "energetic")]]),
      ("photoUrls", .list [.str "https://example.com/charlie.jpg"])],
    .dict [("id", .int 4), ("name", .str "Luna"),
      ("category", .dict [("id", .int 2), ("name", .str "Cats")]),
      ("status", .str "sold"),
      ("tags", .list [.dict [("id", .int 6), ("name", .str "quiet")],
        .dict [("id", .int 4), ("name", .str "indoor")]]),
      ("photoUrls", .list [.str "https://example.com/luna1.jpg",
        .str "https://example.com/luna2.jpg"])],
    .dict [("id", .int 42), ("name", .str "Max"),
      ("category", .dict [("id", .int 1), ("name", .str "Dogs")]),
      ("status", .str "available"),
      ("tags", .list [.dict [("id", .int 7), ("name", .str "guard dog")],
        .dict [("id", .int 1), ("name", .str "friendly")]]),
      ("photoUrls", .list [.str "https://example.com/max.jpg"])]]

/-- `MockPetStoreMCPClient.get_pets`: returns the client's pet list (the
client is parameterized by the list held in `self.mock_pets`). -/
def get_pets (db : List PyVal) : List PyVal :=
  db

/-- `MockPetStoreMCPClient.get_pet_by_id`: first pet whose `"id"` entry
equals the argument, else the error dict
`{"error": f"Pet with ID {pet_id} not found"}`. -/
def get_pet_by_id (db : List PyVal) (pet_id : Int) : Except PyErr PyVal :=
  match db with
  | [] => .ok (.dict [("error", .str ("Pet with ID " ++ toString pet_id ++ " not found"))])
  | pet :: rest => do
    let v ← pyIndex pet "id"
    if pyEqB v (.int pet_id) then pure pet else get_pet_by_id rest pet_id

/-- `MockPetStoreMCPClient.search_pets_by_status`:
`[pet for pet in self.mock_pets if pet["status"] == status]`. -/
def search_pets_by_status (db : List PyVal) (status : String) : Except PyErr (List PyVal) :=
  filterE (fun pet => do
    let v ← pyIndex pet "status"
    pure (pyEqB v (.str status))) db

/-- `AIOrchestrator._format_pets_response` (mock script lines 177-198): the
empty check, then one `format_pet_block` per pet. No try/except surrounds
this body in the mock script, so errors propagate to the caller. -/
def _format_pets_response (data : List PyVal) (header : String) : Except PyErr String :=
  if data.isEmpty then .ok (header ++ "\n\n😔 No pets found.")
  else do
    let blocks ← mapE format_pet_block data
    pure (header ++ "\n\n" ++ String.join blocks)

/-- `AIOrchestrator._format_single_pet_response` (mock script lines 200-218):
the shared single-pet body with no surrounding try/except. -/
def _format_single_pet_response (pet : PyVal) : Except PyErr String :=
  _format_single_pet_response_core pet

/-- `AIOrchestrator._handle_get_all_pets`. -/
def _handle_get_all_pets (db : List PyVal) : Except PyErr String :=
  _format_pets_response (get_pets db) "🐾 Here are all the pets in our store:"

/-- `AIOrchestrator._handle_get_pet_by_id`: the error-dict check
`if "error" in result` and either the apology line or the formatted pet. -/
def _handle_get_pet_by_id (db : List PyVal) (pet_id : Int) : Except PyErr String := do
  let result ← get_pet_by_id db pet_id
  match result with
  | .dict kvs =>
    if (kvs.find? (fun kv => kv.1 == "error")).isSome then do
      let e ← pyIndex result "error"
      pure ("❌ Sorry, I couldn't find pet " ++ toString pet_id ++ ": " ++ pyStr e)
    else
      _format_single_pet_response result
  | _ => .error .typeError

/-- `AIOrchestrator._handle_get_available_pets`. -/
def _handle_get_available_pets (db : List PyVal) : Except PyErr String := do
  let result ← search_pets_by_status db "available"
  _format_pets_response result "🟢 Here are the pets available for adoption:"

/-- `AIOrchestrator._handle_get_sold_pets`. -/
def _handle_get_sold_pets (db : List PyVal) : Except PyErr String := do
  let result ← search_pets_by_status db "sold"
  _format_pets_response result "🔴 Here are the pets that have been sold:"

/-- `AIOrchestrator._handle_get_pending_pets`. -/
def _handle_get_pending_pets (db : List PyVal) : Except PyErr String := do
  let result ← search_pets_by_status db "pending"
  _format_pets_response result "🟡 Here are the pets with pending adoptions:"

/-- Category test of the dog and cat handlers:
`pet.get('category', {}).get('name', '').lower() == '...'`. -/
def category_name_is (pet : PyVal) (which : String) : Except PyErr Bool := do
  let catV ← dictGet pet "category" (.dict [])
  let nameV ← dictGet catV "name" (.str "")
  let lowered ← pyLowerV nameV
  pure (lowered == which)

/-- `AIOrchestrator._handle_get_dogs`: dogs by category, then only the
available ones. -/
def _handle_get_dogs (db : List PyVal) : Except PyErr String := do
  let all_pets := get_pets db
  let dogs ← filterE (fun pet => category_name_is pet "dogs") all_pets
  let available_dogs ← filterE (fun dog => do
    let st ← dictGet1 dog "status"
    pure (pyEqB st (.str "available"))) dogs
  _format_pets_response available_dogs "🐕 Here are the available dogs in our store:"

/-- `AIOrchestrator._handle_get_cats`: cats by category, with no status
filter. -/
def _handle_get_cats (db : List PyVal) : Except PyErr String := do
  let all_pets := get_pets db
  let cats ← filterE (fun pet => category_name_is pet "cats") all_pets
  _format_pets_response cats "🐱 Here are all the cats in our store:"

/-- `AIOrchestrator._handle_general_query` (mock script lines 161-175). -/
def _handle_general_query (prompt : String) : String :=
  "🐕 Welcome to our Pet Store! 🐱\n\nI can help you with:\n• 📋 List all pets: \"Show me all pets\"\n• 🔍 Find a specific pet: \"Show me pet with ID 123\"\n• 🟢 Available pets: \"What pets are available?\"\n• 🟡 Pending adoptions: \"Which pets are pending?\"\n• 🔴 Sold pets: \"What pets have been sold?\"\n• 🐕 Dogs: \"List available dogs\"\n• 🐱 Cats: \"What cats do you have?\"\n\nYour request: \"" ++ prompt ++ "\"\nTry rephrasing your question using one of the examples above! 😊"

/-- The help message of the pet-id branch when `if pet_id:` is false. -/
def need_id_message : String :=
  "🤔 I couldn't find a valid pet ID in your request. Please specify a pet ID number."

/-- `AIOrchestrator.process_prompt`: the keyword dispatch of `route` applied
to the handler bodies, for a client holding pet list `db`. -/
def process_prompt (db : List PyVal) (prompt : String) : Except PyErr String :=
  match route prompt with
  | .listAll => _handle_get_all_pets db
  | .byId pet_id => _handle_get_pet_by_id db pet_id
  | .needId => .ok need_id_message
  | .pendingPets => _handle_get_pending_pets db
  | .availablePets => _handle_get_available_pets db
  | .soldPets => _handle_get_sold_pets db
  | .dogs => _handle_get_dogs db
  | .cats => _handle_get_cats db
  | .general => .ok (_handle_general_query prompt)

/-- The message printed by the driver's per-prompt `except` clause. -/
def prompt_error_text : PyErr → String
  | .attributeError => "❌ Error processing prompt: AttributeError"
  | .typeError => "❌ Error processing prompt: TypeError"
  | .keyError => "❌ Error processing prompt: KeyError"

/-- `PetStoreDemoApp.predefined_prompts` (mock script lines 259-268). -/
def predefined_prompts : List String :=
  ["Show me all pets in the store",
   "What pets are available for adoption?",
   "Find me pet with ID 1",
   "Which pets are currently pending adoption?",
   "Show me all sold pets",
   "Tell me about pet number 42",
   "List available dogs",
   "What cats do you have?"]

/-- `PetStoreDemoApp.run`'s prompt loop: each prompt is processed inside
try/except, so a raised error becomes one printed line and the loop goes on
to the next prompt. The result is the list of per-prompt outputs. -/
def run_demo (db : List PyVal) (prompts : List String) : List String :=
  prompts.map (fun p =>
    match process_prompt db p with
    | .ok s => s
    | .error e => prompt_error_text e)

end Mock

namespace SK

/-- Loop body of the Semantic Kernel `_format_pets_response` for one pet
(lines 316-331): a dict pet gets the shared block, anything else the
`🐾 Pet: ...` line; the blank separator line is appended in both branches. -/
def pet_block (pet : PyVal) : Except PyErr String :=
  match pet with
  | .dict _ => format_pet_block pet
  | p => .ok ("🐾 Pet: " ++ pyStr p ++ "\n" ++ "\n")

/-- Body of the Semantic Kernel `_format_pets_response` after the
string-decoding step (lines 310-333): the emptiness check
`if not data or (isinstance(data, list) and len(data) == 0)`, the
normalization `pets = data if isinstance(data, list) else [data]`, and the
per-pet loop. -/
def format_pets_core (data : PyVal) (header : String) : Except PyErr String :=
  if !truthy data || (match data with | PyVal.list xs => xs.isEmpty | _ => false) then
    .ok (header ++ "\n\n😔 No pets found.")
  else do
    let pets := match data with | PyVal.list xs => xs | d => [d]
    let blocks ← mapE pet_block pets
    pure (header ++ "\n\n" ++ String.join blocks)

/-- `PetStoreSemanticKernelAgent._format_pets_response` (lines 300-337): a
string payload goes through `json.loads`, whose failure returns the raw text
under the header; the whole body sits in a try/except whose handler returns
`f"{header}\n\n📄 {str(data)}"` for the current (possibly decoded) data. -/
def _format_pets_response (data : PyVal) (header : String) : String :=
  match data with
  | .str s =>
    match json_loads s with
    | Option.none => header ++ "\n\n📄 " ++ s
    | some d =>
      match format_pets_core d header with
      | .ok r => r
      | .error _ => header ++ "\n\n📄 " ++ pyStr d
  | d =>
    match format_pets_core d header with
    | .ok r => r
    | .error _ => header ++ "\n\n📄 " ++ pyStr d

/-- Body of the Semantic Kernel `_format_single_pet_response` after the
string-decoding step (lines 348-367): a dict pet gets the shared single-pet
body, anything else the raw fallback banner. -/
def single_core (pet : PyVal) : Except PyErr String :=
  match pet with
  | .dict _ => _format_single_pet_response_core pet
  | p => .ok ("🐾 **Pet Details** 🐾\n\n📄 " ++ pyStr p)

/-- `PetStoreSemanticKernelAgent._format_single_pet_response`
(lines 339-371): `json.loads` on a string payload with raw-text fallback,
and a try/except whose handler returns the raw fallback banner for the
current (possibly decoded) pet. -/
def _format_single_pet_response (pet : PyVal) : String :=
  match pet with
  | .str s =>
    match json_loads s with
    | Option.none => "🐾 **Pet Details** 🐾\n\n📄 " ++ s
    | some d =>
      match single_core d with
      | .ok r => r
      | .error _ => "🐾 **Pet Details** 🐾\n\n📄 " ++ pyStr d
  | p =>
    match single_core p with
    | .ok r => r
    | .error _ => "🐾 **Pet Details** 🐾\n\n📄 " ++ pyStr p

end SK

/-- A field that, when present, must hold a string for the formatters to
avoid a raised error. -/
def wfStrOpt : Option PyVal → Bool
  | Option.none => true
  | some (.str _) => true
  | some _ => false

/-- One tag entry the formatters can render: a dict whose `"name"` entry, if
present, is a string. -/
def wfTag : PyVal → Bool
  | .dict kvs => wfStrOpt (lookupKey kvs "name")
  | _ => false

/-- A tags field the formatters can render: absent, or a list of `wfTag`s. -/
def wfTags : Option PyVal → Bool
  | Option.none => true
  | some (.list ts) => ts.all wfTag
  | some _ => false

/-- A category field the formatters can render: absent, or a dict whose
`"name"` entry, if present, is a string. -/
def wfCat : Option PyVal → Bool
  | Option.none => true
  | some (.dict kvs) => wfStrOpt (lookupKey kvs "name")
  | some _ => false

/-- A photoUrls field that `len` accepts: absent, or a list. -/
def wfPhotos : Option PyVal → Bool
  | Option.none => true
  | some (.list _) => true
  | some _ => false

/-- A pet value on which the formatters complete without raising: a dict
whose category, status, tags and photoUrls fields (each optional) are
well-typed. The id and name fields may hold anything, since they are only
interpolated via `str`. -/
def wf_pet : PyVal → Bool
  | .dict kvs =>
    wfCat (lookupKey kvs "category") && wfStrOpt (lookupKey kvs "status")
      && wfTags (lookupKey kvs "tags") && wfPhotos (lookupKey kvs "photoUrls")
  | _ => false

/-- Scenario data: one cat whose status is sold. -/
def sold_cat : PyVal :=
  .dict [("id", .int 4), ("name", .str "Luna"),
    ("category", .dict [("id", .int 2), ("name", .str "Cats")]),
    ("status", .str "sold"),
    ("tags", .list []),
    ("photoUrls", .list [.str "https://example.com/luna1.jpg"])]

/-- Scenario data: one dog whose status is available. -/
def available_dog : PyVal :=
  .dict [("id", .int 1), ("name", .str "Buddy"),
    ("category", .dict [("id", .int 1), ("name", .str "Dogs")]),
    ("status", .str "available"),
    ("tags", .list []),
    ("photoUrls", .list [.str "https://example.com/buddy1.jpg"])]

theorem charOfNat_toNat (n : Nat) (h : n < 0xd800) : (Char.ofNat n).toNat = n := by
  simp [Char.ofNat, Nat.isValidChar, h, Char.ofNatAux, Char.toNat, UInt32.toNat]

theorem lowerChar_idem (c : Char) : lowerChar (lowerChar c) = lowerChar c := by
  unfold lowerChar
  by_cases h : 65 ≤ c.toNat ∧ c.toNat ≤ 90
  · rw [if_pos h]
    have h2 : (Char.ofNat (c.toNat + 32)).toNat = c.toNat + 32 :=
      charOfNat_toNat _ (by omega)
    rw [h2, if_neg (by omega)]
  · rw [if_neg h, if_neg h]

theorem pyLower_idem (s : String) : pyLower (pyLower s) = pyLower s := by
  unfold pyLower
  cases s with
  | mk l =>
    simp only [List.map_map]
    congr 1
    exact List.map_congr_left (fun a _ => lowerChar_idem a)

/-- C8: the status-icon mapping is invariant under letter case: for every
status string s the icon for s equals the icon for the lowercased s; the
three known statuses map to green, yellow, red in any casing, and every
other status (including the empty string and a missing value) maps to the
unknown marker. -/
theorem C8_status_icon_case_insensitive :
    (∀ s : String, _get_status_emoji (.str s) = _get_status_emoji (.str (pyLower s)))
    ∧ _get_status_emoji (.str "Available") = .ok "🟢"
    ∧ _get_status_emoji (.str "AVAILABLE") = .ok "🟢"
    ∧ _get_status_emoji (.str "available") = .ok "🟢"
    ∧ _get_status_emoji (.str "Pending") = .ok "🟡"
    ∧ _get_status_emoji (.str "pending") = .ok "🟡"
    ∧ _get_status_emoji (.str "SOLD") = .ok "🔴"
    ∧ _get_status_emoji (.str "sold") = .ok "🔴"
    ∧ (∀ s : String, pyLower s ≠ "available" → pyLower s ≠ "pending" → pyLower s ≠ "sold" →
        _get_status_emoji (.str s) = .ok "❓")
    ∧ _get_status_emoji (.str "") = .ok "❓"
    ∧ _get_status_emoji PyVal.none = .ok "❓" := by
  refine ⟨?_, rfl, rfl, rfl, rfl, rfl, rfl, rfl, ?_, rfl, rfl⟩
  · intro s
    cases s with
    | mk l =>
      cases l with
      | nil => rfl
      | cons c cs =>
        have hne : pyLower ⟨c :: cs⟩ = ⟨lowerChar c :: cs.map lowerChar⟩ := rfl
        simp only [_get_status_emoji, truthy, hne, List.isEmpty_cons, Bool.not_false, if_true,
          pyLowerV, bind, Except.bind, pure, Except.pure]
        rw [show pyLower ⟨lowerChar c :: cs.map lowerChar⟩ = pyLower (pyLower ⟨c :: cs⟩) from
          congrArg pyLower hne.symm, pyLower_idem, hne]
  · intro s h1 h2 h3
    cases s with
    | mk l =>
      cases l with
      | nil => rfl
      | cons c cs =>
        simp only [_get_status_emoji, truthy, List.isEmpty_cons, Bool.not_false, if_true,
          pyLowerV, bind, Except.bind, pure, Except.pure]
        simp [beq_iff_eq, h1, h2, h3]

/-- Witness for C8: a status outside the three known values gets the
unknown marker. -/
theorem C8_witness : _get_status_emoji (.str "Banana") = .ok "❓" :=
  C8_status_icon_case_insensitive.2.2.2.2.2.2.2.2.1 "Banana" (by decide) (by decide) (by decide)

/-- C6: formatting an empty pet list under any header yields exactly the
header, a blank line, and the no-results notice, in both scripts. -/
theorem C6_empty_list_formatting (h : String) :
    Mock._format_pets_response [] h = .ok (h ++ "\n\n😔 No pets found.")
    ∧ SK._format_pets_response (.list []) h = h ++ "\n\n😔 No pets found." := by
  constructor
  · rfl
  · rfl

/-- C4: for every integer id that is not the id of any pet in the mock data
source, `get_pet_by_id` returns the error dict carrying the message
`Pet with ID {id} not found`, the handler turns it into the apology line
without raising, and the driver loop processes each prompt independently and
goes on to the next one. -/
theorem C4_fetch_by_id_absent (pet_id : Int)
    (h : pet_id ∉ ([1, 2, 3, 4, 42] : List Int)) :
    Mock.get_pet_by_id Mock.mock_pets pet_id
      = .ok (.dict [("error", .str ("Pet with ID " ++ toString pet_id ++ " not found"))])
    ∧ Mock._handle_get_pet_by_id Mock.mock_pets pet_id
      = .ok ("❌ Sorry, I couldn't find pet " ++ toString pet_id ++ ": "
          ++ ("Pet with ID " ++ toString pet_id ++ " not found"))
    ∧ (∀ prompt : String, Mock.route prompt = .byId pet_id →
        Mock.process_prompt Mock.mock_pets prompt
          = .ok ("❌ Sorry, I couldn't find pet " ++ toString pet_id ++ ": "
              ++ ("Pet with ID " ++ toString pet_id ++ " not found")))
    ∧ (∀ (p : String) (rest : List String),
        Mock.run_demo Mock.mock_pets (p :: rest)
          = (match Mock.process_prompt Mock.mock_pets p with
             | .ok s => s
             | .error e => Mock.prompt_error_text e) :: Mock.run_demo Mock.mock_pets rest) := by
  obtain ⟨h1, h2, h3, h4, h5⟩ :
      pet_id ≠ 1 ∧ pet_id ≠ 2 ∧ pet_id ≠ 3 ∧ pet_id ≠ 4 ∧ pet_id ≠ 42 := by
    simp only [List.mem_cons, List.not_mem_nil, or_false] at h
    push_neg at h
    exact ⟨h.1, h.2.1, h.2.2.1, h.2.2.2.1, h.2.2.2.2⟩
  have hget : Mock.get_pet_by_id Mock.mock_pets pet_id
      = .ok (.dict [("error", .str ("Pet with ID " ++ toString pet_id ++ " not found"))]) := by
    simp [Mock.get_pet_by_id, Mock.mock_pets, pyIndex, lookupKey, pyEqB, bind, Except.bind,
      beq_iff_eq, Ne.symm h1, Ne.symm h2, Ne.symm h3, Ne.symm h4, Ne.symm h5]
  have hhandle : Mock._handle_get_pet_by_id Mock.mock_pets pet_id
      = .ok ("❌ Sorry, I couldn't find pet " ++ toString pet_id ++ ": "
          ++ ("Pet with ID " ++ toString pet_id ++ " not found")) := by
    simp [Mock._handle_get_pet_by_id, hget, bind, Except.bind, pyIndex, lookupKey, pyStr,
      pure, Except.pure]
  refine ⟨hget, hhandle, ?_, ?_⟩
  · intro prompt hroute
    simp [Mock.process_prompt, hroute, hhandle]
  · intro p rest
    simp [Mock.run_demo]

/-- Witness for C4: id 99 is absent from the data source. -/
theorem C4_witness :
    Mock.get_pet_by_id Mock.mock_pets 99
      = .ok (.dict [("error", .str ("Pet with ID " ++ toString (99 : Int) ++ " not found"))]) :=
  (C4_fetch_by_id_absent 99 (by decide)).1

/-- C5: `search_pets_by_status` with a status outside the three known values
returns an empty list (not an error), and with each known value returns
exactly the mock pets whose status equals that value. -/
theorem C5_search_by_status (status : String)
    (h : status ∉ (["available", "pending", "sold"] : List String)) :
    Mock.search_pets_by_status Mock.mock_pets status = .ok []
    ∧ Mock.search_pets_by_status Mock.mock_pets "available"
      = .ok [Mock.mock_pets[0], Mock.mock_pets[1], Mock.mock_pets[4]]
    ∧ Mock.search_pets_by_status Mock.mock_pets "pending" = .ok [Mock.mock_pets[2]]
    ∧ Mock.search_pets_by_status Mock.mock_pets "sold" = .ok [Mock.mock_pets[3]] := by
  obtain ⟨h1, h2, h3⟩ : status ≠ "available" ∧ status ≠ "pending" ∧ status ≠ "sold" := by
    simp only [List.mem_cons, List.not_mem_nil, or_false] at h
    push_neg at h
    exact h
  refine ⟨?_, rfl, rfl, rfl⟩
  simp [Mock.search_pets_by_status, Mock.mock_pets, filterE, pyIndex, lookupKey, pyEqB,
    bind, Except.bind, pure, Except.pure, beq_iff_eq, Ne.symm h1, Ne.symm h2, Ne.symm h3]

/-- Witness for C5: an unknown status yields the empty list. -/
theorem C5_witness : Mock.search_pets_by_status Mock.mock_pets "bananas" = .ok [] :=
  (C5_search_by_status "bananas" (by decide)).1

/-- C1 counterexample: the prompt `"all pets 3"` contains the substring
`"all pets"`, yet the Semantic Kernel router `_route_prompt_to_function`
(cited by the claim) returns the by-id route, not the list-all route,
because its pet-id branch is checked first. -/
theorem C1_counterexample :
    pyIn "all pets" (pyLower "all pets 3") = true
    ∧ SK._route_prompt_to_function "all pets 3" = SKRoute.byId 3
    ∧ SK._route_prompt_to_function "all pets 3" ≠ SKRoute.listAll := by
  refine ⟨by decide, by decide, by decide⟩

/-- C1 amended: a prompt containing `"all pets"` or `"list pets"` routes to
the list-all operation unconditionally in the mock router, whose all-pets
branch is first; in the Semantic Kernel router the same holds only when the
prompt contains neither the substring `"id"` nor any decimal digit, since
its pet-id branch is checked first. -/
theorem C1_all_pets_routing :
    (∀ prompt : String,
        (pyIn "all pets" (pyLower prompt) || pyIn "list pets" (pyLower prompt)) = true →
        Mock.route prompt = RouteDecision.listAll)
    ∧ (∀ prompt : String,
        (pyIn "all pets" (pyLower prompt) || pyIn "list pets" (pyLower prompt)) = true →
        pyIn "id" (pyLower prompt) = false → anyDigit prompt = false →
        SK._route_prompt_to_function prompt = SKRoute.listAll) := by
  constructor
  · intro prompt h
    simp [Mock.route, h]
  · intro prompt h hid hdig
    simp [SK._route_prompt_to_function, h, hid, hdig]

/-- Witness for C1 (amended): a plain all-pets prompt routes to list-all in
both scripts. -/
theorem C1_witness :
    Mock.route "show me all pets" = RouteDecision.listAll
    ∧ SK._route_prompt_to_function "show me all pets" = SKRoute.listAll :=
  ⟨C1_all_pets_routing.1 "show me all pets" (by decide),
   C1_all_pets_routing.2 "show me all pets" (by decide) (by decide) (by decide)⟩

/-- C3 counterexample: `"pet 0"` matches the pet-id branch and its first
digit run parses to the integer 0, but the routers do not return the by-id
route for 0 — Python's `if pet_id:` is false at 0, so the help message
branch is taken instead. -/
theorem C3_counterexample :
    (pyIn "pet" (pyLower "pet 0") && (pyIn "id" (pyLower "pet 0") || anyDigit "pet 0")) = true
    ∧ _extract_pet_id "pet 0" = some 0
    ∧ Mock.route "pet 0" ≠ RouteDecision.byId 0
    ∧ Mock.route "pet 0" = RouteDecision.needId
    ∧ SK._route_prompt_to_function "pet 0" = SKRoute.needId := by
  refine ⟨by decide, by decide, by decide, by decide, by decide⟩

/-- Auxiliary: `List.takeWhile` keeps a block of elements satisfying the
predicate and continues into the suffix. -/
theorem takeWhile_all_append (p : Char → Bool) (ds post : List Char)
    (h : ds.all p = true) :
    (ds ++ post).takeWhile p = ds ++ post.takeWhile p := by
  induction ds with
  | nil => rfl
  | cons d ds ih =>
    simp only [List.all_cons, Bool.and_eq_true] at h
    simp [List.takeWhile, h.1, ih h.2]

/-- Auxiliary: the first digit run of `pre ++ ds ++ post` is `ds` when `pre`
has no digits, `ds` is a nonempty digit run, and `post` does not start with
a digit. -/
theorem firstDigitRun_split (pre ds post : List Char)
    (hpre : pre.all (fun c => !c.isDigit) = true)
    (hne : ds ≠ [])
    (hds : ds.all Char.isDigit = true)
    (hpost : ∀ c, post.head? = some c → c.isDigit = false) :
    firstDigitRun (pre ++ ds ++ post) = some ds := by
  induction pre with
  | nil =>
    cases ds with
    | nil => exact absurd rfl hne
    | cons d ds' =>
      simp only [List.all_cons, Bool.and_eq_true] at hds
      have hpost' : post.takeWhile Char.isDigit = [] := by
        cases post with
        | nil => rfl
        | cons c post' =>
          simp [List.takeWhile, hpost c rfl]
      simp [firstDigitRun, hds.1, takeWhile_all_append Char.isDigit ds' post hds.2, hpost']
  | cons c pre' ih =>
    simp only [List.all_cons, Bool.and_eq_true, Bool.not_eq_true'] at hpre
    simp only [List.cons_append, firstDigitRun, hpre.1, if_false]
    exact ih hpre.2

/-- C3 amended: on the pet-id branch the routers extract the first run of
consecutive digits anywhere in the raw prompt and return the by-id route
for its integer value whenever that value is nonzero (`route "pet 7 and 12"`
gives by-id 7); when no digit run exists — or when the first run parses to
the falsy integer 0 — they return the help-message outcome asking for a
valid numeric id. -/
theorem C3_first_digit_run_routing :
    Mock.route "pet 7 and 12" = RouteDecision.byId 7
    ∧ SK._route_prompt_to_function "pet 7 and 12" = SKRoute.byId 7
    ∧ (∀ (pre ds post : List Char),
        pre.all (fun c => !c.isDigit) = true → ds ≠ [] → ds.all Char.isDigit = true →
        (∀ c, post.head? = some c → c.isDigit = false) →
        _extract_pet_id ⟨pre ++ ds ++ post⟩ = some (digitsToNat ds : Int))
    ∧ (∀ (prompt : String) (n : Int),
        (pyIn "all pets" (pyLower prompt) || pyIn "list pets" (pyLower prompt)) = false →
        (pyIn "pet" (pyLower prompt) && (pyIn "id" (pyLower prompt) || anyDigit prompt)) = true →
        _extract_pet_id prompt = some n → n ≠ 0 →
        Mock.route prompt = RouteDecision.byId n)
    ∧ (∀ prompt : String,
        (pyIn "all pets" (pyLower prompt) || pyIn "list pets" (pyLower prompt)) = false →
        (pyIn "pet" (pyLower prompt) && (pyIn "id" (pyLower prompt) || anyDigit prompt)) = true →
        _extract_pet_id prompt = Option.none →
        Mock.route prompt = RouteDecision.needId)
    ∧ (∀ (prompt : String) (n : Int),
        (pyIn "pet" (pyLower prompt) && (pyIn "id" (pyLower prompt) || anyDigit prompt)) = true →
        _extract_pet_id prompt = some n → n ≠ 0 →
        SK._route_prompt_to_function prompt = SKRoute.byId n) := by
  refine ⟨by decide, by decide, ?_, ?_, ?_, ?_⟩
  · intro pre ds post hpre hne hds hpost
    have hrun := firstDigitRun_split pre ds post hpre hne hds hpost
    unfold _extract_pet_id
    rw [show (String.mk (pre ++ ds ++ post)).data = pre ++ ds ++ post from rfl, hrun]
    rfl
  · intro prompt n h1 h2 hext hn
    simp [Mock.route, h1, h2, hext, bne, hn]
  · intro prompt h1 h2 hext
    simp [Mock.route, h1, h2, hext]
  · intro prompt n h2 hext hn
    simp [SK._route_prompt_to_function, h2, hext, bne, hn]

/-- Witness for C3 (amended): splitting `"pet 7 and 12"` around its first
digit run and routing concretely. -/
theorem C3_witness :
    _extract_pet_id ⟨['p', 'e', 't', ' '] ++ ['7'] ++ [' ', 'a', 'n', 'd', ' ', '1', '2']⟩
      = some (digitsToNat ['7'] : Int)
    ∧ Mock.route "pet 13" = RouteDecision.byId 13 :=
  ⟨C3_first_digit_run_routing.2.2.1 ['p', 'e', 't', ' '] ['7']
      [' ', 'a', 'n', 'd', ' ', '1', '2'] (by decide) (by decide) (by decide)
      (by intro c hc; cases hc; rfl),
   C3_first_digit_run_routing.2.2.2.1 "pet 13" 13 (by decide) (by decide) (by decide)
      (by decide)⟩

/-- C10: when the pet-id branch matches and the first digit run parses to 0,
the routers do not return the by-id route for 0; the parsed id is falsy, so
the outcome is the help message asking for a valid pet ID number — exactly
the outcome of the no-digits case. -/
theorem C10_zero_id_is_falsy :
    (∀ prompt : String,
        (pyIn "all pets" (pyLower prompt) || pyIn "list pets" (pyLower prompt)) = false →
        (pyIn "pet" (pyLower prompt) && (pyIn "id" (pyLower prompt) || anyDigit prompt)) = true →
        _extract_pet_id prompt = some 0 →
        Mock.route prompt = RouteDecision.needId
        ∧ Mock.route prompt ≠ RouteDecision.byId 0
        ∧ (∀ db : List PyVal, Mock.process_prompt db prompt = .ok Mock.need_id_message))
    ∧ (∀ prompt : String,
        (pyIn "pet" (pyLower prompt) && (pyIn "id" (pyLower prompt) || anyDigit prompt)) = true →
        _extract_pet_id prompt = some 0 →
        SK._route_prompt_to_function prompt = SKRoute.needId) := by
  constructor
  · intro prompt h1 h2 hext
    have hroute : Mock.route prompt = RouteDecision.needId := by
      simp [Mock.route, h1, h2, hext]
    refine ⟨hroute, by simp [hroute], ?_⟩
    intro db
    simp [Mock.process_prompt, hroute]
  · intro prompt h2 hext
    simp [SK._route_prompt_to_function, h2, hext]

/-- Witness for C10: the prompt `"pet id 0"` hits the zero-id edge case. -/
theorem C10_witness :
    Mock.route "pet id 0" = RouteDecision.needId
    ∧ SK._route_prompt_to_function "pet id 0" = SKRoute.needId :=
  ⟨((C10_zero_id_is_falsy.1 "pet id 0" (by decide) (by decide) (by decide)).1),
   C10_zero_id_is_falsy.2 "pet id 0" (by decide) (by decide)⟩

/-- C9: the prompt `"What cats do you have?"` against a data set of exactly
one sold cat and one available dog routes to the cats handler, whose output
lists only the cat entry: the sold cat Luna appears, the available dog Buddy
does not. -/
theorem C9_cats_scenario :
    Mock.route "What cats do you have?" = RouteDecision.cats
    ∧ Mock.process_prompt [sold_cat, available_dog] "What cats do you have?"
      = .ok ("🐱 Here are all the cats in our store:\n\n"
          ++ "🐱 **Pet #4**: Luna\n   📂 Category: Cats\n   🔴 Status: Sold\n\n")
    ∧ pyIn "Luna"
        ("🐱 Here are all the cats in our store:\n\n"
          ++ "🐱 **Pet #4**: Luna\n   📂 Category: Cats\n   🔴 Status: Sold\n\n") = true
    ∧ pyIn "Buddy"
        ("🐱 Here are all the cats in our store:\n\n"
          ++ "🐱 **Pet #4**: Luna\n   📂 Category: Cats\n   🔴 Status: Sold\n\n") = false := by
  refine ⟨by decide, rfl, by decide, by decide⟩

theorem mapE_ok_of_forall {α β : Type} (f : α → Except PyErr β) (g : α → β)
    (l : List α) (h : ∀ a ∈ l, f a = .ok (g a)) : mapE f l = .ok (l.map g) := by
  induction l with
  | nil => rfl
  | cons a as ih =>
    simp only [mapE, h a (List.mem_cons_self a as), bind, Except.bind, List.map_cons]
    rw [ih (fun x hx => h x (List.mem_cons_of_mem a hx))]
    rfl

theorem mapE_map {α β γ : Type} (f : β → Except PyErr γ) (g : α → β) (l : List α) :
    mapE f (l.map g) = mapE (fun a => f (g a)) l := by
  induction l with
  | nil => rfl
  | cons a as ih => simp [mapE, ih]

theorem pyJoin_ok (sep : String) (vs : List PyVal)
    (h : ∀ v ∈ vs, ∃ s, v = PyVal.str s) : ∃ j, pyJoin sep vs = .ok j := by
  have hm := mapE_ok_of_forall
    (fun v => match v with
      | PyVal.str s => Except.ok s
      | _ => Except.error PyErr.typeError)
    (fun v => match v with
      | PyVal.str s => s
      | _ => "") vs
    (by
      intro v hv
      obtain ⟨s, rfl⟩ := h v hv
      rfl)
  refine ⟨sep.intercalate (vs.map (fun v => match v with
    | PyVal.str s => s
    | _ => "")), ?_⟩
  simp [pyJoin, hm, bind, Except.bind, pure, Except.pure, String.intercalate]

theorem catName_val (kvs : List (String × PyVal)) (d : String)
    (h : wfCat (lookupKey kvs "category") = true) :
    ∃ t : String,
      dictGet ((lookupKey kvs "category").getD (PyVal.dict [])) "name" (PyVal.str d)
        = .ok (.str t) := by
  rcases hcat : lookupKey kvs "category" with _ | c
  · exact ⟨d, rfl⟩
  · rw [hcat] at h
    cases c with
    | dict ckvs =>
      rcases hn : lookupKey ckvs "name" with _ | v
      · exact ⟨d, by simp [dictGet, hn]⟩
      · rw [wfCat, hn] at h
        cases v <;> simp [wfStrOpt] at h
        case str t => exact ⟨t, by simp [dictGet, hn]⟩
    | none => simp [wfCat] at h
    | bool b => simp [wfCat] at h
    | int n => simp [wfCat] at h
    | str s => simp [wfCat] at h
    | list xs => simp [wfCat] at h

theorem strField_val (o : Option PyVal) (d : String) (h : wfStrOpt o = true) :
    ∃ t : String, o.getD (PyVal.str d) = PyVal.str t := by
  rcases o with _ | v
  · exact ⟨d, rfl⟩
  · cases v <;> simp [wfStrOpt] at h
    case str t => exact ⟨t, rfl⟩

theorem get_pet_emoji_str (s : String) : ∃ e, _get_pet_emoji (.str s) = .ok e := by
  by_cases h : truthy (.str s) <;>
    simp [_get_pet_emoji, pyLowerV, h, bind, Except.bind, pure, Except.pure]

theorem get_status_emoji_str (s : String) : ∃ e, _get_status_emoji (.str s) = .ok e := by
  by_cases h : truthy (.str s) <;>
    simp [_get_status_emoji, pyLowerV, h, bind, Except.bind, pure, Except.pure]

theorem tags_joined_ok (kvs : List (String × PyVal)) (ts : List PyVal)
    (hk : lookupKey kvs "tags" = some (.list ts)) (h : ts.all wfTag = true) :
    ∃ j, tags_joined (.dict kvs) = .ok j := by
  have hnames := mapE_ok_of_forall (fun tag => dictGet tag "name" (PyVal.str ""))
    (fun tag => match tag with
      | PyVal.dict tkvs => (lookupKey tkvs "name").getD (PyVal.str "")
      | _ => PyVal.str "") ts
    (by
      intro tag htag
      have hwt : wfTag tag = true := by
        rw [List.all_eq_true] at h
        exact h tag htag
      cases tag <;> simp [wfTag] at hwt <;> rfl)
  have hstr : ∀ v ∈ ts.map (fun tag => match tag with
      | PyVal.dict tkvs => (lookupKey tkvs "name").getD (PyVal.str "")
      | _ => PyVal.str ""), ∃ s, v = PyVal.str s := by
    intro v hv
    rw [List.mem_map] at hv
    obtain ⟨tag, htag, rfl⟩ := hv
    have hwt : wfTag tag = true := by
      rw [List.all_eq_true] at h
      exact h tag htag
    cases tag <;> simp [wfTag] at hwt
    case dict tkvs =>
      exact strField_val (lookupKey tkvs "name") "" hwt
  obtain ⟨j, hj⟩ := pyJoin_ok ", " _ hstr
  have hd : dictGet (PyVal.dict kvs) "tags" (PyVal.list []) = Except.ok (PyVal.list ts) := by
    simp [dictGet, hk]
  exact ⟨j, by simp only [tags_joined, bind, Except.bind, hd, pyIterate, hnames, hj]⟩

theorem tags_joined_names (kvs : List (String × PyVal)) (ns : List String)
    (hk : lookupKey kvs "tags"
      = some (.list (ns.map (fun n => PyVal.dict [("name", PyVal.str n)])))) :
    tags_joined (.dict kvs) = .ok (String.intercalate ", " ns) := by
  have hnames : mapE (fun tag => dictGet tag "name" (PyVal.str ""))
      (ns.map (fun n => PyVal.dict [("name", PyVal.str n)])) = .ok (ns.map PyVal.str) := by
    rw [mapE_map]
    exact mapE_ok_of_forall
      (fun n => dictGet (PyVal.dict [("name", PyVal.str n)]) "name" (PyVal.str ""))
      PyVal.str ns (by intro n _; simp [dictGet, lookupKey])
  have hjoin : pyJoin ", " (ns.map PyVal.str) = .ok (String.intercalate ", " ns) := by
    have h2 : mapE (fun v => match v with
        | PyVal.str s => Except.ok s
        | _ => Except.error PyErr.typeError) (ns.map PyVal.str) = Except.ok ns := by
      rw [mapE_map]
      have h3 := mapE_ok_of_forall
        (fun n : String => (Except.ok n : Except PyErr String)) (fun n => n) ns
        (fun _ _ => rfl)
      simpa using h3
    simp [pyJoin, h2, bind, Except.bind, pure, Except.pure]
  have hd : dictGet (PyVal.dict kvs) "tags" (PyVal.list [])
      = Except.ok (PyVal.list (ns.map (fun n => PyVal.dict [("name", PyVal.str n)]))) := by
    simp [dictGet, hk]
  simp only [tags_joined, bind, Except.bind, hd, pyIterate, hnames, hjoin]

theorem ok_bind {α β : Type} (a : α) (f : α → Except PyErr β) :
    (Except.ok a : Except PyErr α) >>= f = f a := rfl

theorem pure_eq_ok {α : Type} (a : α) : (pure a : Except PyErr α) = Except.ok a := rfl

theorem pyStr_str (s : String) : pyStr (.str s) = s := rfl

theorem single_pet_lines_structure (kvs : List (String × PyVal))
    (hwf : wf_pet (PyVal.dict kvs) = true) :
    ∃ (e idS nameS catS stE stT : String) (tagsPart photosPart : List PetLine),
      single_pet_lines (PyVal.dict kvs)
        = .ok ([PetLine.banner e, PetLine.idLine idS, PetLine.nameLine nameS,
            PetLine.categoryLine catS, PetLine.statusLine stE stT] ++ tagsPart ++ photosPart)
      ∧ (truthy ((lookupKey kvs "tags").getD PyVal.none) = false → tagsPart = [])
      ∧ (∀ ns : List String, ns ≠ [] →
          lookupKey kvs "tags"
            = some (.list (ns.map (fun n => PyVal.dict [("name", PyVal.str n)]))) →
          tagsPart = [PetLine.tagsLine (String.intercalate ", " ns)])
      ∧ tagsPart.all PetLine.isTagsLine = true
      ∧ photosPart.all (fun x => !x.isTagsLine) = true := by
  have hwf' := hwf
  simp only [wf_pet, Bool.and_eq_true] at hwf'
  obtain ⟨⟨⟨hc, hs⟩, htg⟩, hp⟩ := hwf'
  obtain ⟨catT, hcatT⟩ := catName_val kvs "" hc
  obtain ⟨catT2, hcatT2⟩ := catName_val kvs "Unknown" hc
  obtain ⟨stS, hstS⟩ := strField_val (lookupKey kvs "status") "" hs
  obtain ⟨stS2, hstS2⟩ := strField_val (lookupKey kvs "status") "Unknown" hs
  obtain ⟨pe, hpe⟩ := get_pet_emoji_str catT
  obtain ⟨se, hse⟩ := get_status_emoji_str stS
  have hA : dictGet (PyVal.dict kvs) "category" (PyVal.dict [])
      = .ok ((lookupKey kvs "category").getD (PyVal.dict [])) := rfl
  have hC : dictGet (PyVal.dict kvs) "status" (PyVal.str "") = .ok (.str stS) := by
    simp [dictGet, hstS]
  have hF : dictGet (PyVal.dict kvs) "id" (PyVal.str "Unknown")
      = .ok ((lookupKey kvs "id").getD (PyVal.str "Unknown")) := rfl
  have hG : dictGet (PyVal.dict kvs) "name" (PyVal.str "Unnamed")
      = .ok ((lookupKey kvs "name").getD (PyVal.str "Unnamed")) := rfl
  have hI : dictGet (PyVal.dict kvs) "status" (PyVal.str "Unknown") = .ok (.str stS2) := by
    simp [dictGet, hstS2]
  have hJ : pyTitleV (.str stS2) = .ok (pyTitle stS2) := rfl
  have hK : dictGet1 (PyVal.dict kvs) "tags"
      = .ok ((lookupKey kvs "tags").getD PyVal.none) := rfl
  have hKp : dictGet1 (PyVal.dict kvs) "photoUrls"
      = .ok ((lookupKey kvs "photoUrls").getD PyVal.none) := rfl
  have htp : ∃ tp : List PetLine,
      (truthy ((lookupKey kvs "tags").getD PyVal.none) = true →
        ∃ j, tags_joined (PyVal.dict kvs) = .ok j ∧ tp = [PetLine.tagsLine j])
      ∧ (truthy ((lookupKey kvs "tags").getD PyVal.none) = false → tp = [])
      ∧ (∀ ns : List String, ns ≠ [] →
          lookupKey kvs "tags"
            = some (.list (ns.map (fun n => PyVal.dict [("name", PyVal.str n)]))) →
          tp = [PetLine.tagsLine (String.intercalate ", " ns)])
      ∧ tp.all PetLine.isTagsLine = true := by
    rcases htag : lookupKey kvs "tags" with _ | tv
    · refine ⟨[], ?_, fun _ => rfl, ?_, rfl⟩
      · intro hcond
        simp [truthy] at hcond
      · intro ns hns hk2
        exact Option.noConfusion hk2
    · rw [htag] at htg
      cases tv with
      | list ts =>
        simp only [wfTags] at htg
        cases ts with
        | nil =>
          refine ⟨[], ?_, fun _ => rfl, ?_, rfl⟩
          · intro hcond
            simp [truthy] at hcond
          · intro ns hns hk2
            simp only [Option.some.injEq, PyVal.list.injEq] at hk2
            have hmapnil : ns.map (fun n => PyVal.dict [("name", PyVal.str n)]) = [] :=
              hk2.symm
            rw [List.map_eq_nil_iff] at hmapnil
            exact absurd hmapnil hns
        | cons t ts' =>
          obtain ⟨j, hj⟩ := tags_joined_ok kvs (t :: ts') htag htg
          refine ⟨[PetLine.tagsLine j], fun _ => ⟨j, hj, rfl⟩, ?_, ?_, rfl⟩
          · intro hfalse
            simp [truthy] at hfalse
          · intro ns hns hk2
            simp only [Option.some.injEq, PyVal.list.injEq] at hk2
            have hnames := tags_joined_names kvs ns (by rw [htag, hk2])
            rw [hj] at hnames
            injection hnames with hh
            rw [hh]
      | none => simp [wfTags] at htg
      | bool b => simp [wfTags] at htg
      | int n => simp [wfTags] at htg
      | str t => simp [wfTags] at htg
      | dict dkvs => simp [wfTags] at htg
  have hpp : ∃ pp : List PetLine,
      (truthy ((lookupKey kvs "photoUrls").getD PyVal.none) = true →
        ∃ ps : List PyVal, dictGet (PyVal.dict kvs) "photoUrls" (PyVal.list [])
            = .ok (PyVal.list ps) ∧ pp = [PetLine.photosLine ps.length])
      ∧ (truthy ((lookupKey kvs "photoUrls").getD PyVal.none) = false → pp = [])
      ∧ pp.all (fun x => !x.isTagsLine) = true := by
    rcases hph : lookupKey kvs "photoUrls" with _ | pv
    · refine ⟨[], ?_, fun _ => rfl, rfl⟩
      intro hcond
      simp [truthy] at hcond
    · rw [hph] at hp
      cases pv with
      | list ps =>
        cases ps with
        | nil =>
          refine ⟨[], ?_, fun _ => rfl, rfl⟩
          intro hcond
          simp [truthy] at hcond
        | cons q qs =>
          refine ⟨[PetLine.photosLine (q :: qs).length], ?_, ?_, rfl⟩
          · intro _
            exact ⟨q :: qs, by simp [dictGet, hph], rfl⟩
          · intro hfalse
            simp [truthy] at hfalse
      | none => simp [wfPhotos] at hp
      | bool b => simp [wfPhotos] at hp
      | int n => simp [wfPhotos] at hp
      | str t => simp [wfPhotos] at hp
      | dict dkvs => simp [wfPhotos] at hp
  obtain ⟨tp, htpT, htpF, htp3, htp4⟩ := htp
  obtain ⟨pp, hppT, hppF, hpp2⟩ := hpp
  refine ⟨pe, pyStr ((lookupKey kvs "id").getD (PyVal.str "Unknown")),
    pyStr ((lookupKey kvs "name").getD (PyVal.str "Unnamed")), catT2, se, pyTitle stS2,
    tp, pp, ?_, htpF, htp3, htp4, hpp2⟩
  by_cases hct : truthy ((lookupKey kvs "tags").getD PyVal.none) = true
  · obtain ⟨j, hj, htpv⟩ := htpT hct
    by_cases hcp : truthy ((lookupKey kvs "photoUrls").getD PyVal.none) = true
    · obtain ⟨ps, hps, hppv⟩ := hppT hcp
      simp only [single_pet_lines, hA, ok_bind, hcatT, hpe, hC, hse, hF, hG, hcatT2, hI,
        hJ, hK, hKp, pure_eq_ok, pyStr_str, hct, if_true, hcp, hj, hps, pyLen, htpv, hppv]
    · have hcp' : truthy ((lookupKey kvs "photoUrls").getD PyVal.none) = false := by
        simpa using hcp
      simp only [single_pet_lines, hA, ok_bind, hcatT, hpe, hC, hse, hF, hG, hcatT2, hI,
        hJ, hK, hKp, pure_eq_ok, pyStr_str, hct, if_true, hcp', Bool.false_eq_true,
        if_false, hj, htpv, hppF hcp']
  · have hct' : truthy ((lookupKey kvs "tags").getD PyVal.none) = false := by
      simpa using hct
    by_cases hcp : truthy ((lookupKey kvs "photoUrls").getD PyVal.none) = true
    · obtain ⟨ps, hps, hppv⟩ := hppT hcp
      simp only [single_pet_lines, hA, ok_bind, hcatT, hpe, hC, hse, hF, hG, hcatT2, hI,
        hJ, hK, hKp, pure_eq_ok, pyStr_str, hct', Bool.false_eq_true, if_false, hcp,
        if_true, hps, pyLen, htpF hct', hppv]
    · have hcp' : truthy ((lookupKey kvs "photoUrls").getD PyVal.none) = false := by
        simpa using hcp
      simp only [single_pet_lines, hA, ok_bind, hcatT, hpe, hC, hse, hF, hG, hcatT2, hI,
        hJ, hK, hKp, pure_eq_ok, pyStr_str, hct', hcp', Bool.false_eq_true, if_false,
        htpF hct', hppF hcp']

/-- C7: on a well-typed pet, the single-pet formatter emits no tags piece
when the tags field is absent or empty, and emits exactly one tags piece
whose content joins the tag names with `", "` in their original order when
the tags list is non-empty; the rendered output of both scripts is the
concatenation of the emitted pieces. -/
theorem C7_tags_line_conditional (pet : PyVal) (hwf : wf_pet pet = true) :
    ((∀ v, dictGet1 pet "tags" = .ok v → truthy v = false) →
      ∃ l, single_pet_lines pet = .ok l
        ∧ l.all (fun x => ! x.isTagsLine) = true
        ∧ Mock._format_single_pet_response pet = .ok (String.join (l.map PetLine.render))
        ∧ SK._format_single_pet_response pet = String.join (l.map PetLine.render))
    ∧ (∀ ns : List String, ns ≠ [] →
        dictGet1 pet "tags"
          = .ok (PyVal.list (ns.map (fun n => PyVal.dict [("name", PyVal.str n)]))) →
        ∃ l, single_pet_lines pet = .ok l
          ∧ PetLine.tagsLine (String.intercalate ", " ns) ∈ l
          ∧ Mock._format_single_pet_response pet = .ok (String.join (l.map PetLine.render))
          ∧ SK._format_single_pet_response pet = String.join (l.map PetLine.render)) := by
  cases pet with
  | dict kvs =>
    obtain ⟨e, idS, nameS, catS, stE, stT, tagsPart, photosPart, hlines, htpF, htp3, htp4,
      hpp2⟩ := single_pet_lines_structure kvs hwf
    have hv : dictGet1 (PyVal.dict kvs) "tags"
        = .ok ((lookupKey kvs "tags").getD PyVal.none) := rfl
    constructor
    · intro hfalsy
      have hfalse := hfalsy _ hv
      have htp0 : tagsPart = [] := htpF hfalse
      subst htp0
      refine ⟨_, hlines, ?_, ?_, ?_⟩
      · simp only [List.all_append, List.append_nil, Bool.and_eq_true]
        exact ⟨rfl, hpp2⟩
      · simp [Mock._format_single_pet_response, _format_single_pet_response_core, hlines,
          Except.map]
      · simp [SK._format_single_pet_response, SK.single_core,
          _format_single_pet_response_core, hlines, Except.map]
    · intro ns hns hget
      have hlk : lookupKey kvs "tags"
          = some (.list (ns.map (fun n => PyVal.dict [("name", PyVal.str n)]))) := by
        rw [hv] at hget
        rcases hl : lookupKey kvs "tags" with _ | v
        · rw [hl] at hget
          simp at hget
        · rw [hl] at hget
          simp only [Option.getD_some, Except.ok.injEq] at hget
          exact congrArg some hget
      have htpv := htp3 ns hns hlk
      subst htpv
      refine ⟨_, hlines, ?_, ?_, ?_⟩
      · simp [List.mem_append]
      · simp [Mock._format_single_pet_response, _format_single_pet_response_core, hlines,
          Except.map]
      · simp [SK._format_single_pet_response, SK.single_core,
          _format_single_pet_response_core, hlines, Except.map]
  | none => simp [wf_pet] at hwf
  | bool b => simp [wf_pet] at hwf
  | int n => simp [wf_pet] at hwf
  | str s => simp [wf_pet] at hwf
  | list xs => simp [wf_pet] at hwf

/-- Witness for C7: a pet with no tags field gets no tags piece; a pet with
one tag named friendly gets the tags piece with exactly that content. -/
theorem C7_witness :
    (∃ l, single_pet_lines (PyVal.dict []) = .ok l
      ∧ l.all (fun x => ! x.isTagsLine) = true
      ∧ Mock._format_single_pet_response (PyVal.dict [])
          = .ok (String.join (l.map PetLine.render))
      ∧ SK._format_single_pet_response (PyVal.dict [])
          = String.join (l.map PetLine.render))
    ∧ (∃ l, single_pet_lines
          (PyVal.dict [("tags", PyVal.list [PyVal.dict [("name", PyVal.str "friendly")]])])
          = .ok l
      ∧ PetLine.tagsLine (String.intercalate ", " ["friendly"]) ∈ l
      ∧ Mock._format_single_pet_response
          (PyVal.dict [("tags", PyVal.list [PyVal.dict [("name", PyVal.str "friendly")]])])
          = .ok (String.join (l.map PetLine.render))
      ∧ SK._format_single_pet_response
          (PyVal.dict [("tags", PyVal.list [PyVal.dict [("name", PyVal.str "friendly")]])])
          = String.join (l.map PetLine.render)) :=
  ⟨(C7_tags_line_conditional (PyVal.dict []) (by decide)).1
      (by
        intro v hv
        simp only [dictGet1, dictGet, lookupKey, List.find?] at hv
        injection hv with h
        rw [← h]
        rfl),
   (C7_tags_line_conditional
      (PyVal.dict [("tags", PyVal.list [PyVal.dict [("name", PyVal.str "friendly")]])])
      (by decide)).2 ["friendly"] (by decide) rfl⟩

theorem mapE_isOk {α β : Type} (f : α → Except PyErr β) (l : List α)
    (h : ∀ a ∈ l, ∃ b, f a = .ok b) : ∃ bs, mapE f l = .ok bs := by
  induction l with
  | nil => exact ⟨[], rfl⟩
  | cons a as ih =>
    obtain ⟨b, hb⟩ := h a (List.mem_cons_self a as)
    obtain ⟨bs, hbs⟩ := ih (fun x hx => h x (List.mem_cons_of_mem a hx))
    exact ⟨b :: bs, by simp [mapE, hb, hbs, ok_bind, pure_eq_ok]⟩

theorem format_pet_block_wf (kvs : List (String × PyVal))
    (hwf : wf_pet (PyVal.dict kvs) = true) :
    ∃ s, format_pet_block (PyVal.dict kvs) = .ok s := by
  have hwf' := hwf
  simp only [wf_pet, Bool.and_eq_true] at hwf'
  obtain ⟨⟨⟨hc, hs⟩, htg⟩, _hp⟩ := hwf'
  obtain ⟨catT, hcatT⟩ := catName_val kvs "" hc
  obtain ⟨catT2, hcatT2⟩ := catName_val kvs "Unknown" hc
  obtain ⟨stS, hstS⟩ := strField_val (lookupKey kvs "status") "" hs
  obtain ⟨stS2, hstS2⟩ := strField_val (lookupKey kvs "status") "Unknown" hs
  obtain ⟨pe, hpe⟩ := get_pet_emoji_str catT
  obtain ⟨se, hse⟩ := get_status_emoji_str stS
  have hA : dictGet (PyVal.dict kvs) "category" (PyVal.dict [])
      = .ok ((lookupKey kvs "category").getD (PyVal.dict [])) := rfl
  have hC : dictGet (PyVal.dict kvs) "status" (PyVal.str "") = .ok (.str stS) := by
    simp [dictGet, hstS]
  have hF : dictGet (PyVal.dict kvs) "id" (PyVal.str "Unknown")
      = .ok ((lookupKey kvs "id").getD (PyVal.str "Unknown")) := rfl
  have hG : dictGet (PyVal.dict kvs) "name" (PyVal.str "Unnamed")
      = .ok ((lookupKey kvs "name").getD (PyVal.str "Unnamed")) := rfl
  have hI : dictGet (PyVal.dict kvs) "status" (PyVal.str "Unknown") = .ok (.str stS2) := by
    simp [dictGet, hstS2]
  have hJ : pyTitleV (.str stS2) = .ok (pyTitle stS2) := rfl
  have hK : dictGet1 (PyVal.dict kvs) "tags"
      = .ok ((lookupKey kvs "tags").getD PyVal.none) := rfl
  by_cases hct : truthy ((lookupKey kvs "tags").getD PyVal.none) = true
  · have hj : ∃ j, tags_joined (PyVal.dict kvs) = .ok j := by
      rcases htag : lookupKey kvs "tags" with _ | tv
      · rw [htag] at hct
        simp [truthy] at hct
      · rw [htag] at htg hct
        cases tv with
        | list ts =>
          simp only [wfTags] at htg
          exact tags_joined_ok kvs ts htag htg
        | none => simp [wfTags] at htg
        | bool b => simp [wfTags] at htg
        | int n => simp [wfTags] at htg
        | str t => simp [wfTags] at htg
        | dict dkvs => simp [wfTags] at htg
    obtain ⟨j, hjv⟩ := hj
    exact ⟨_, by
      simp only [format_pet_block, hA, ok_bind, hcatT, hpe, hC, hse, hF, hG, hcatT2, hI, hJ,
        hK, pure_eq_ok, hct, if_true, hjv]
      rfl⟩
  · have hct' : truthy ((lookupKey kvs "tags").getD PyVal.none) = false := by
      simpa using hct
    exact ⟨_, by
      simp only [format_pet_block, hA, ok_bind, hcatT, hpe, hC, hse, hF, hG, hcatT2, hI, hJ,
        hK, pure_eq_ok, hct', Bool.false_eq_true, if_false]
      rfl⟩

/-- C2 counterexample: the mock script's formatters have no surrounding
try/except, and a pet whose present status field holds `None` makes
`pet.get('status', 'Unknown').title()` raise an uncaught `AttributeError`
from both the list formatter and the single-pet formatter. -/
theorem C2_counterexample :
    Mock._format_pets_response [PyVal.dict [("status", PyVal.none)]] "H"
      = .error PyErr.attributeError
    ∧ Mock._format_single_pet_response (PyVal.dict [("status", PyVal.none)])
      = .error PyErr.attributeError := ⟨rfl, rfl⟩

/-- C2 amended: the Semantic Kernel formatters never fail — a payload that
fails structured decoding is rendered as the raw text under the header, and
any error in the body is caught and rendered as the stringified payload
under the header; the mock formatters return a string on every pet whose
present fields are well-typed (absent fields included), but can raise an
uncaught error on a malformed present field (see the counterexample). -/
theorem C2_formatter_robustness :
    (∀ (s : String) (h : String), json_loads s = Option.none →
      SK._format_pets_response (.str s) h = h ++ "\n\n📄 " ++ s
      ∧ SK._format_single_pet_response (.str s) = "🐾 **Pet Details** 🐾\n\n📄 " ++ s)
    ∧ (∀ (data : PyVal) (h : String) (e : PyErr),
        SK.format_pets_core data h = .error e →
        (∀ t, data ≠ .str t) →
        SK._format_pets_response data h = h ++ "\n\n📄 " ++ pyStr data)
    ∧ (∀ (pets : List PyVal) (h : String), pets.all wf_pet = true →
        ∃ out, Mock._format_pets_response pets h = .ok out)
    ∧ (∀ pet : PyVal, wf_pet pet = true →
        ∃ out, Mock._format_single_pet_response pet = .ok out) := by
  refine ⟨?_, ?_, ?_, ?_⟩
  · intro s h hjson
    constructor
    · simp [SK._format_pets_response, hjson]
    · simp [SK._format_single_pet_response, hjson]
  · intro data h e herr hnstr
    cases data with
    | str t => exact absurd rfl (hnstr t)
    | none => simp [SK._format_pets_response, herr]
    | bool b => simp [SK._format_pets_response, herr]
    | int n => simp [SK._format_pets_response, herr]
    | list xs => simp [SK._format_pets_response, herr]
    | dict kvs => simp [SK._format_pets_response, herr]
  · intro pets h hwf
    by_cases he : pets.isEmpty
    · exact ⟨h ++ "\n\n😔 No pets found.", by simp [Mock._format_pets_response, he]⟩
    · have hb : ∀ p ∈ pets, ∃ s, format_pet_block p = .ok s := by
        intro p hp
        have hwfp : wf_pet p = true := by
          rw [List.all_eq_true] at hwf
          exact hwf p hp
        cases p with
        | dict kvs => exact format_pet_block_wf kvs hwfp
        | none => simp [wf_pet] at hwfp
        | bool b => simp [wf_pet] at hwfp
        | int n => simp [wf_pet] at hwfp
        | str t => simp [wf_pet] at hwfp
        | list xs => simp [wf_pet] at hwfp
      obtain ⟨bs, hbs⟩ := mapE_isOk _ _ hb
      exact ⟨h ++ "\n\n" ++ String.join bs,
        by simp [Mock._format_pets_response, he, hbs, ok_bind, pure_eq_ok]⟩
  · intro pet hwfp
    cases pet with
    | dict kvs =>
      obtain ⟨e, idS, nameS, catS, stE, stT, tagsPart, photosPart, hlines, _, _, _, _⟩ :=
        single_pet_lines_structure kvs hwfp
      exact ⟨_, by
        simp only [Mock._format_single_pet_response, _format_single_pet_response_core,
          hlines, Except.map]
        rfl⟩
    | none => simp [wf_pet] at hwfp
    | bool b => simp [wf_pet] at hwfp
    | int n => simp [wf_pet] at hwfp
    | str t => simp [wf_pet] at hwfp
    | list xs => simp [wf_pet] at hwfp

/-- Witness for C2 (amended): a non-JSON string payload falls back to raw
text under the header, and a pet dict with no fields at all formats without
raising. -/
theorem C2_witness :
    (SK._format_pets_response (.str "not json") "HDR" = "HDR" ++ "\n\n📄 " ++ "not json"
      ∧ SK._format_single_pet_response (.str "not json")
          = "🐾 **Pet Details** 🐾\n\n📄 " ++ "not json")
    ∧ (∃ out, Mock._format_pets_response [PyVal.dict []] "HDR" = .ok out) :=
  ⟨C2_formatter_robustness.1 "not json" "HDR" rfl,
   C2_formatter_robustness.2.2.1 [PyVal.dict []] "HDR" (by decide)⟩

end PetStore